import Mathlib

/-!
Verification of the GNSS timing core of `libloragw` (`loragw_gps.c`).

The development shallowly embeds the C source:
* machine bytes and the 32-bit concentrator counter are `ℕ` with explicit
  `% 2^32` wrapping where the C code relies on unsigned overflow;
* C `double` arithmetic is embedded as exact rational (`ℚ`) arithmetic, with
  `modf` and the narrowing casts modelled by explicit truncation toward zero;
* reads of the caller-supplied serial buffer are fallible: they use
  `Option`-returning list indexing, so an out-of-bounds access of the C code
  surfaces as `none`;
* the file-scope parser snapshot (`gps_iTOW`, `gps_fTOW`, `gps_week`,
  `gps_time_ok`) and the `static` aberration history of `lgw_gps_sync` are
  passed explicitly as state records;
* `time(NULL)` is an explicit `now` parameter.
-/

namespace LoragwGps

/-- Return kinds of the frame parsers (`enum gps_msg`). -/
inductive GpsMsg where
  | UNKNOWN
  | IGNORED
  | INVALID
  | INCOMPLETE
  | UBX_NAV_TIMEGPS
  | NMEA_RMC
  | NMEA_GGA
  deriving DecidableEq

/-- Success/error sentinel (`LGW_GPS_SUCCESS` / `LGW_GPS_ERROR`). -/
inductive LgwRet where
  | success
  | error
  deriving DecidableEq

/-- `struct timespec`: seconds and nanoseconds as signed integers. -/
structure Timespec where
  tv_sec : ℤ
  tv_nsec : ℤ
  deriving DecidableEq

/-- `struct tref`: time reference for GPS <-> timestamp conversion. -/
structure Tref where
  systime : ℤ
  count_us : ℕ
  utc : Timespec
  gps : Timespec
  xtal_err : ℚ
  deriving DecidableEq

/-- The `static` aberration history of `lgw_gps_sync`
(`aber_min1` = sync N-1 aberrant, `aber_min2` = sync N-2 aberrant). -/
structure AberHist where
  aber_min1 : Bool
  aber_min2 : Bool
  deriving DecidableEq

/-- The UBX part of the file-scope fix snapshot:
`gps_iTOW`, `gps_fTOW`, `gps_week`, `gps_time_ok`. -/
structure FixUbx where
  gps_iTOW : ℕ
  gps_fTOW : ℤ
  gps_week : ℤ
  gps_time_ok : Bool
  deriving DecidableEq

/-- `TS_CPS` (1E6): counts per second of the timestamp counter. -/
def TS_CPS : ℚ := 1000000

/-- `PLUS_10PPM` (1.00001). -/
def PLUS_10PPM : ℚ := 100001 / 100000

/-- `MINUS_10PPM` (0.99999). -/
def MINUS_10PPM : ℚ := 99999 / 100000

/-- 2^32, the modulus of `uint32_t` arithmetic. -/
def U32M : ℕ := 4294967296

/-- Wrapping `uint32_t` subtraction `a - b`. -/
def u32sub (a b : ℕ) : ℕ := (a % U32M + (U32M - b % U32M)) % U32M

/-- Truncation of a rational toward zero: the value of a C cast of a `double`
to an integer type (and of `modf`'s integral part). -/
def truncQ (q : ℚ) : ℤ := if 0 ≤ q then ⌊q⌋ else -⌊-q⌋

/-- Difference of two timespecs in seconds, as computed by the C code:
`(double)(a.tv_sec - b.tv_sec) + 1E-9 * (double)(a.tv_nsec - b.tv_nsec)`. -/
def ts_diff (a b : Timespec) : ℚ :=
  ((a.tv_sec - b.tv_sec : ℤ) : ℚ) + (1 / 1000000000) * ((a.tv_nsec - b.tv_nsec : ℤ) : ℚ)

/-- The aberrant-point detection of `lgw_gps_sync` (the computation of
`aber_n0`): the slope `cnt_diff / utc_diff` exceeds the ±10 ppm window, or
`utc_diff` is zero. -/
def sync_aberrant (ref : Tref) (count_us : ℕ) (utc : Timespec) : Bool :=
  let cnt_diff : ℚ := ((u32sub count_us ref.count_us : ℕ) : ℚ) / TS_CPS
  let utc_diff : ℚ := ts_diff utc ref.utc
  let slope : ℚ := cnt_diff / utc_diff
  if utc_diff ≠ 0 then
    (if slope > PLUS_10PPM ∨ slope < MINUS_10PPM then true else false)
  else true

/-- `sync_aberrant` in propositional form. -/
theorem sync_aberrant_iff (ref : Tref) (count_us : ℕ) (utc : Timespec) :
    sync_aberrant ref count_us utc = true ↔
      ts_diff utc ref.utc = 0 ∨
      ((u32sub count_us ref.count_us : ℕ) : ℚ) / TS_CPS / ts_diff utc ref.utc > PLUS_10PPM ∨
      ((u32sub count_us ref.count_us : ℕ) : ℚ) / TS_CPS / ts_diff utc ref.utc < MINUS_10PPM := by
  simp only [sync_aberrant]
  split_ifs with h1 h2 <;> simp_all

/-- `lgw_gps_sync`: fold a new (counter, UTC, GPS) sample into the reference.
`now` stands for `time(NULL)`; `hist` is the static aberration history.
Returns the return code, the (possibly updated) reference and the new
history. -/
def lgw_gps_sync (now : ℤ) (ref : Tref) (hist : AberHist) (count_us : ℕ)
    (utc gps_time : Timespec) : LgwRet × Tref × AberHist :=
  let cnt_diff : ℚ := ((u32sub count_us ref.count_us : ℕ) : ℚ) / TS_CPS
  let utc_diff : ℚ := ts_diff utc ref.utc
  let slope : ℚ := cnt_diff / utc_diff
  let aber_n0 : Bool := sync_aberrant ref count_us utc
  if aber_n0 = false then
    (.success,
     { systime := now, count_us := count_us, utc := utc, gps := gps_time,
       xtal_err := slope },
     { aber_min1 := aber_n0, aber_min2 := hist.aber_min1 })
  else if aber_n0 = true ∧ hist.aber_min1 = true ∧ hist.aber_min2 = true then
    (.success,
     { systime := now, count_us := count_us, utc := utc, gps := gps_time,
       xtal_err :=
         if ref.xtal_err > PLUS_10PPM ∨ ref.xtal_err < MINUS_10PPM then 1
         else ref.xtal_err },
     { aber_min1 := aber_n0, aber_min2 := hist.aber_min1 })
  else
    (.error, ref, { aber_min1 := aber_n0, aber_min2 := hist.aber_min1 })

/-- Common body of `lgw_cnt2utc` and `lgw_cnt2gps` (the two C functions are
verbatim copies differing only in the reference timespec used): convert a
counter value to a timespec relative to `base`, with `modf` split and explicit
nanosecond carry. -/
def cnt2time_body (base : Timespec) (refc : ℕ) (ε : ℚ) (c : ℕ) : Timespec :=
  let delta_sec : ℚ := ((u32sub c refc : ℕ) : ℚ) / (TS_CPS * ε)
  let intpart : ℤ := truncQ delta_sec
  let fractpart : ℚ := delta_sec - (intpart : ℚ)
  let tmp : ℤ := base.tv_nsec + truncQ (fractpart * 1000000000)
  if tmp < 1000000000 then ⟨base.tv_sec + intpart, tmp⟩
  else ⟨base.tv_sec + intpart + 1, tmp - 1000000000⟩

/-- Common body of `lgw_utc2cnt` and `lgw_gps2cnt`: convert a timespec to a
counter value. The C cast `(uint32_t)(delta_sec * TS_CPS * ref.xtal_err)` of a
negative or too-large `double` is undefined behaviour; it is modelled as
truncation clamped at zero followed by the `uint32_t` wrap of the addition. -/
def time2cnt_body (base : Timespec) (refc : ℕ) (ε : ℚ) (t : Timespec) : ℕ :=
  let delta_sec : ℚ := ts_diff t base
  (refc + (truncQ (delta_sec * TS_CPS * ε)).toNat) % U32M

/-- Validity guard shared by all four conversions:
`(ref.systime == 0) || (ref.xtal_err > PLUS_10PPM) || (ref.xtal_err < MINUS_10PPM)`. -/
def ref_invalid (ref : Tref) : Prop :=
  ref.systime = 0 ∨ ref.xtal_err > PLUS_10PPM ∨ ref.xtal_err < MINUS_10PPM

instance (ref : Tref) : Decidable (ref_invalid ref) := by
  unfold ref_invalid; infer_instance

/-- `lgw_cnt2utc`: `none` models the error return (output not written). -/
def lgw_cnt2utc (ref : Tref) (count_us : ℕ) : Option Timespec :=
  if ref_invalid ref then none
  else some (cnt2time_body ref.utc ref.count_us ref.xtal_err count_us)

/-- `lgw_utc2cnt`. -/
def lgw_utc2cnt (ref : Tref) (utc : Timespec) : Option ℕ :=
  if ref_invalid ref then none
  else some (time2cnt_body ref.utc ref.count_us ref.xtal_err utc)

/-- `lgw_cnt2gps`. -/
def lgw_cnt2gps (ref : Tref) (count_us : ℕ) : Option Timespec :=
  if ref_invalid ref then none
  else some (cnt2time_body ref.gps ref.count_us ref.xtal_err count_us)

/-- `lgw_gps2cnt`. -/
def lgw_gps2cnt (ref : Tref) (gps_time : Timespec) : Option ℕ :=
  if ref_invalid ref then none
  else some (time2cnt_body ref.gps ref.count_us ref.xtal_err gps_time)

/-- The all-zero (uninitialized) time reference. -/
def refZero : Tref := { systime := 0, count_us := 0, utc := ⟨0, 0⟩, gps := ⟨0, 0⟩, xtal_err := 0 }

/-! ### Claim C2 — first sync from an all-zero reference -/

/-- Claim C2 (counterexample): from the all-zero reference, the call
`sync(count_us=1_000_000, utc=(100,0), gps=(200,0))` does NOT return success:
the slope evaluates to 1/100, the sample is classified aberrant, and with no
prior aberrant history the sync is rejected. -/
theorem C2_counterexample :
    (lgw_gps_sync 7 refZero ⟨false, false⟩ 1000000 ⟨100, 0⟩ ⟨200, 0⟩).1 ≠ LgwRet.success := by
  norm_num [lgw_gps_sync, sync_aberrant, refZero, ts_diff, u32sub, U32M, TS_CPS, PLUS_10PPM,
    MINUS_10PPM]
  decide

/-- Claim C2 (amended): starting from the all-zero reference with an empty
aberration history, `sync(count_us=1_000_000, utc=(100,0), gps=(200,0))`
computes the slope `cnt_diff/utc_diff = 1/100`, classifies the sample
aberrant, returns the error sentinel, and leaves every field of the reference
unchanged; only the aberration history records the aberrant attempt. -/
theorem C2_theorem :
    ((u32sub 1000000 refZero.count_us : ℕ) : ℚ) / TS_CPS / ts_diff ⟨100, 0⟩ refZero.utc
        = 1 / 100 ∧
    (1 : ℚ) / 100 < MINUS_10PPM ∧
    lgw_gps_sync 7 refZero ⟨false, false⟩ 1000000 ⟨100, 0⟩ ⟨200, 0⟩
        = (.error, refZero, ⟨true, false⟩) := by
  refine ⟨by norm_num [refZero, ts_diff, u32sub, U32M, TS_CPS], by norm_num [MINUS_10PPM],
    by norm_num [lgw_gps_sync, sync_aberrant, refZero, ts_diff, u32sub, U32M, TS_CPS, PLUS_10PPM,
    MINUS_10PPM]⟩

/-! ### Claim C3 — aberrant sample without full aberrant history is rejected -/

/-- Claim C3 (counterexample): a sample whose slope is exactly 1.00001 — a
point outside the OPEN interval (0.99999, 1.00001), hence aberrant per the
claim — is accepted by the code (strict comparisons), the sync commits and
returns success even though the two previous attempts were not aberrant. -/
theorem C3_counterexample :
    ((u32sub 1000010 refZero.count_us : ℕ) : ℚ) / TS_CPS / ts_diff ⟨1, 0⟩ refZero.utc
        = PLUS_10PPM ∧
    lgw_gps_sync 7 refZero ⟨false, false⟩ 1000010 ⟨1, 0⟩ ⟨2, 0⟩
        = (.success, ⟨7, 1000010, ⟨1, 0⟩, ⟨2, 0⟩, PLUS_10PPM⟩, ⟨false, false⟩) := by
  refine ⟨by norm_num [refZero, ts_diff, u32sub, U32M, TS_CPS, PLUS_10PPM],
    by norm_num [lgw_gps_sync, sync_aberrant, refZero, ts_diff, u32sub, U32M, TS_CPS, PLUS_10PPM,
    MINUS_10PPM]⟩

/-- Claim C3 (amended): for every sync call whose sample is aberrant in the
sense of the code — `utc_diff = 0`, or the slope strictly outside the CLOSED
interval [0.99999, 1.00001] — and whose previous two attempts were not both
aberrant, `lgw_gps_sync` returns the error sentinel and leaves every field of
the reference unchanged; only the aberration history shifts. -/
theorem C3_theorem (now : ℤ) (ref : Tref) (hist : AberHist) (count_us : ℕ)
    (utc gps_time : Timespec)
    (hab : ts_diff utc ref.utc = 0 ∨
      ((u32sub count_us ref.count_us : ℕ) : ℚ) / TS_CPS / ts_diff utc ref.utc > PLUS_10PPM ∨
      ((u32sub count_us ref.count_us : ℕ) : ℚ) / TS_CPS / ts_diff utc ref.utc < MINUS_10PPM)
    (hh : ¬(hist.aber_min1 = true ∧ hist.aber_min2 = true)) :
    lgw_gps_sync now ref hist count_us utc gps_time
      = (.error, ref, ⟨true, hist.aber_min1⟩) := by
  have ha : sync_aberrant ref count_us utc = true := (sync_aberrant_iff ref count_us utc).2 hab
  simp only [lgw_gps_sync, ha]
  simp [hh]

/-- Claim C3 (witness): concrete aberrant sample (slope 2) with history
(N-1 aberrant, N-2 not): the sync is rejected and the reference untouched. -/
theorem C3_witness :
    ((ts_diff ⟨1, 0⟩ refZero.utc = 0 ∨
      ((u32sub 2000000 refZero.count_us : ℕ) : ℚ) / TS_CPS / ts_diff ⟨1, 0⟩ refZero.utc
          > PLUS_10PPM ∨
      ((u32sub 2000000 refZero.count_us : ℕ) : ℚ) / TS_CPS / ts_diff ⟨1, 0⟩ refZero.utc
          < MINUS_10PPM) ∧
     ¬((⟨true, false⟩ : AberHist).aber_min1 = true ∧ (⟨true, false⟩ : AberHist).aber_min2 = true)) ∧
    lgw_gps_sync 7 refZero ⟨true, false⟩ 2000000 ⟨1, 0⟩ ⟨2, 0⟩
      = (.error, refZero, ⟨true, true⟩) :=
  ⟨⟨by norm_num [refZero, ts_diff, u32sub, U32M, TS_CPS, PLUS_10PPM, MINUS_10PPM], by simp⟩,
   C3_theorem 7 refZero ⟨true, false⟩ 2000000 ⟨1, 0⟩ ⟨2, 0⟩
     (by norm_num [refZero, ts_diff, u32sub, U32M, TS_CPS, PLUS_10PPM, MINUS_10PPM])
     (by simp)⟩

/-! ### Claim C4 — three successive aberrant samples force a re-anchor -/

/-- Claim C4 (counterexample): with the stored `xtal_err` exactly 1.00001 — a
value outside the OPEN interval (0.99999, 1.00001), which the claim says must
be reset to 1.0 — a third successive aberrant sync commits but leaves
`xtal_err` at 1.00001 (the code's out-of-range test uses strict
comparisons). -/
theorem C4_counterexample :
    (lgw_gps_sync 7 ⟨5, 0, ⟨0, 0⟩, ⟨0, 0⟩, PLUS_10PPM⟩ ⟨true, true⟩ 3 ⟨0, 0⟩ ⟨9, 9⟩).2.1.xtal_err
        = PLUS_10PPM ∧
    PLUS_10PPM ≠ (1 : ℚ) ∧
    (lgw_gps_sync 7 ⟨5, 0, ⟨0, 0⟩, ⟨0, 0⟩, PLUS_10PPM⟩ ⟨true, true⟩ 3 ⟨0, 0⟩ ⟨9, 9⟩).1
        = LgwRet.success := by
  have h : lgw_gps_sync 7 ⟨5, 0, ⟨0, 0⟩, ⟨0, 0⟩, PLUS_10PPM⟩ ⟨true, true⟩ 3 ⟨0, 0⟩ ⟨9, 9⟩
      = (.success, ⟨7, 3, ⟨0, 0⟩, ⟨9, 9⟩, PLUS_10PPM⟩, ⟨true, true⟩) := by
    norm_num [lgw_gps_sync, sync_aberrant, ts_diff, u32sub, U32M, TS_CPS, PLUS_10PPM,
      MINUS_10PPM]
  rw [h]
  refine ⟨rfl, by norm_num [PLUS_10PPM], rfl⟩

/-- Claim C4 (amended): for every sync call whose sample is aberrant (in the
code's sense) and whose previous two attempts were both aberrant,
`lgw_gps_sync` returns success and commits `systime`, `count_us`, `utc` and
`gps` from the new sample, while `xtal_err` is left unchanged unless its
stored value lies STRICTLY outside the closed interval [0.99999, 1.00001], in
which case it is reset to 1.0. -/
theorem C4_theorem (now : ℤ) (ref : Tref) (hist : AberHist) (count_us : ℕ)
    (utc gps_time : Timespec)
    (hab : ts_diff utc ref.utc = 0 ∨
      ((u32sub count_us ref.count_us : ℕ) : ℚ) / TS_CPS / ts_diff utc ref.utc > PLUS_10PPM ∨
      ((u32sub count_us ref.count_us : ℕ) : ℚ) / TS_CPS / ts_diff utc ref.utc < MINUS_10PPM)
    (h1 : hist.aber_min1 = true) (h2 : hist.aber_min2 = true) :
    lgw_gps_sync now ref hist count_us utc gps_time
      = (.success,
         ⟨now, count_us, utc, gps_time,
          if ref.xtal_err > PLUS_10PPM ∨ ref.xtal_err < MINUS_10PPM then 1 else ref.xtal_err⟩,
         ⟨true, true⟩) := by
  have ha : sync_aberrant ref count_us utc = true := (sync_aberrant_iff ref count_us utc).2 hab
  simp only [lgw_gps_sync, ha]
  simp [h1, h2]

/-- Claim C4 (witness): concrete third-in-a-row aberrant sync (`utc_diff = 0`)
with in-range stored `xtal_err = 1`: commits the sample, keeps `xtal_err`. -/
theorem C4_witness :
    ((ts_diff ⟨20, 0⟩ (⟨5, 10, ⟨20, 0⟩, ⟨30, 0⟩, 1⟩ : Tref).utc = 0 ∨
      ((u32sub 10 (⟨5, 10, ⟨20, 0⟩, ⟨30, 0⟩, 1⟩ : Tref).count_us : ℕ) : ℚ) / TS_CPS /
          ts_diff ⟨20, 0⟩ (⟨5, 10, ⟨20, 0⟩, ⟨30, 0⟩, 1⟩ : Tref).utc > PLUS_10PPM ∨
      ((u32sub 10 (⟨5, 10, ⟨20, 0⟩, ⟨30, 0⟩, 1⟩ : Tref).count_us : ℕ) : ℚ) / TS_CPS /
          ts_diff ⟨20, 0⟩ (⟨5, 10, ⟨20, 0⟩, ⟨30, 0⟩, 1⟩ : Tref).utc < MINUS_10PPM)) ∧
    lgw_gps_sync 7 ⟨5, 10, ⟨20, 0⟩, ⟨30, 0⟩, 1⟩ ⟨true, true⟩ 10 ⟨20, 0⟩ ⟨31, 0⟩
      = (.success, ⟨7, 10, ⟨20, 0⟩, ⟨31, 0⟩, 1⟩, ⟨true, true⟩) := by
  refine ⟨by norm_num [ts_diff], ?_⟩
  have h := C4_theorem 7 ⟨5, 10, ⟨20, 0⟩, ⟨30, 0⟩, 1⟩ ⟨true, true⟩ 10 ⟨20, 0⟩ ⟨31, 0⟩
    (by norm_num [ts_diff]) (by simp) (by simp)
  rw [h]
  norm_num [PLUS_10PPM, MINUS_10PPM]

/-! ### Claim C8 — counter wrap keeps the slope sane -/

/-- Claim C8: a sync where `count_us < ref.count_us` as plain integers but
`utc_diff > 0` and the unsigned 32-bit wrapped difference gives a slope
within (0.99999, 1.00001) is classified non-aberrant: the sync commits every
field (with `xtal_err` set to that slope) and returns success. -/
theorem C8_theorem (now : ℤ) (ref : Tref) (hist : AberHist) (count_us : ℕ)
    (utc gps_time : Timespec)
    (hlt : count_us < ref.count_us)
    (hpos : 0 < ts_diff utc ref.utc)
    (hs1 : MINUS_10PPM <
      ((u32sub count_us ref.count_us : ℕ) : ℚ) / TS_CPS / ts_diff utc ref.utc)
    (hs2 : ((u32sub count_us ref.count_us : ℕ) : ℚ) / TS_CPS / ts_diff utc ref.utc
      < PLUS_10PPM) :
    lgw_gps_sync now ref hist count_us utc gps_time
      = (.success,
         ⟨now, count_us, utc, gps_time,
          ((u32sub count_us ref.count_us : ℕ) : ℚ) / TS_CPS / ts_diff utc ref.utc⟩,
         ⟨false, hist.aber_min1⟩) := by
  have ha : sync_aberrant ref count_us utc = false := by
    rw [← Bool.not_eq_true, sync_aberrant_iff]
    push_neg
    exact ⟨ne_of_gt hpos, hs2.le, hs1.le⟩
  simp only [lgw_gps_sync, ha]
  simp

/-- Claim C8 (witness): reference counter 4294000000, sample counter
1000000 (wrapped difference 1967296 µs) with `utc_diff = 1.967296 s`: the
slope is exactly 1 and the sync commits. -/
theorem C8_witness :
    (1000000 < (⟨1, 4294000000, ⟨100, 0⟩, ⟨0, 0⟩, 1⟩ : Tref).count_us ∧
     0 < ts_diff ⟨101, 967296000⟩ (⟨1, 4294000000, ⟨100, 0⟩, ⟨0, 0⟩, 1⟩ : Tref).utc ∧
     MINUS_10PPM <
       ((u32sub 1000000 (⟨1, 4294000000, ⟨100, 0⟩, ⟨0, 0⟩, 1⟩ : Tref).count_us : ℕ) : ℚ) /
         TS_CPS / ts_diff ⟨101, 967296000⟩ (⟨1, 4294000000, ⟨100, 0⟩, ⟨0, 0⟩, 1⟩ : Tref).utc ∧
     ((u32sub 1000000 (⟨1, 4294000000, ⟨100, 0⟩, ⟨0, 0⟩, 1⟩ : Tref).count_us : ℕ) : ℚ) /
         TS_CPS / ts_diff ⟨101, 967296000⟩ (⟨1, 4294000000, ⟨100, 0⟩, ⟨0, 0⟩, 1⟩ : Tref).utc
       < PLUS_10PPM) ∧
    lgw_gps_sync 7 ⟨1, 4294000000, ⟨100, 0⟩, ⟨0, 0⟩, 1⟩ ⟨false, false⟩ 1000000
        ⟨101, 967296000⟩ ⟨3, 4⟩
      = (.success, ⟨7, 1000000, ⟨101, 967296000⟩, ⟨3, 4⟩, 1⟩, ⟨false, false⟩) := by
  have e1 : (1000000 : ℕ) < (⟨1, 4294000000, ⟨100, 0⟩, ⟨0, 0⟩, 1⟩ : Tref).count_us := by
    norm_num
  have e2 : 0 < ts_diff ⟨101, 967296000⟩ (⟨1, 4294000000, ⟨100, 0⟩, ⟨0, 0⟩, 1⟩ : Tref).utc := by
    norm_num [ts_diff]
  have e3 : MINUS_10PPM <
      ((u32sub 1000000 (⟨1, 4294000000, ⟨100, 0⟩, ⟨0, 0⟩, 1⟩ : Tref).count_us : ℕ) : ℚ) /
        TS_CPS / ts_diff ⟨101, 967296000⟩ (⟨1, 4294000000, ⟨100, 0⟩, ⟨0, 0⟩, 1⟩ : Tref).utc := by
    norm_num [ts_diff, u32sub, U32M, TS_CPS, MINUS_10PPM]
  have e4 : ((u32sub 1000000 (⟨1, 4294000000, ⟨100, 0⟩, ⟨0, 0⟩, 1⟩ : Tref).count_us : ℕ) : ℚ) /
        TS_CPS / ts_diff ⟨101, 967296000⟩ (⟨1, 4294000000, ⟨100, 0⟩, ⟨0, 0⟩, 1⟩ : Tref).utc
      < PLUS_10PPM := by
    norm_num [ts_diff, u32sub, U32M, TS_CPS, PLUS_10PPM]
  refine ⟨⟨e1, e2, e3, e4⟩, ?_⟩
  have h := C8_theorem 7 ⟨1, 4294000000, ⟨100, 0⟩, ⟨0, 0⟩, 1⟩ ⟨false, false⟩ 1000000
    ⟨101, 967296000⟩ ⟨3, 4⟩ e1 e2 e3 e4
  rw [h]
  norm_num [ts_diff, u32sub, U32M, TS_CPS]

/-! ### Claim C6 — conversion precondition -/

/-- Claim C6 (counterexample): with `systime = 1` and `xtal_err` exactly
1.00001 — outside the OPEN interval (0.99999, 1.00001), where the claim says
the conversions must fail — all four conversions succeed: the code rejects
only with strict comparisons, i.e. outside the closed interval. -/
theorem C6_counterexample :
    (lgw_cnt2utc ⟨1, 0, ⟨0, 0⟩, ⟨0, 0⟩, PLUS_10PPM⟩ 0).isSome = true ∧
    (lgw_utc2cnt ⟨1, 0, ⟨0, 0⟩, ⟨0, 0⟩, PLUS_10PPM⟩ ⟨0, 0⟩).isSome = true ∧
    (lgw_cnt2gps ⟨1, 0, ⟨0, 0⟩, ⟨0, 0⟩, PLUS_10PPM⟩ 0).isSome = true ∧
    (lgw_gps2cnt ⟨1, 0, ⟨0, 0⟩, ⟨0, 0⟩, PLUS_10PPM⟩ ⟨0, 0⟩).isSome = true := by
  have hni : ¬ ref_invalid ⟨1, 0, ⟨0, 0⟩, ⟨0, 0⟩, PLUS_10PPM⟩ := by
    norm_num [ref_invalid, PLUS_10PPM, MINUS_10PPM]
  refine ⟨?_, ?_, ?_, ?_⟩ <;>
    simp [lgw_cnt2utc, lgw_utc2cnt, lgw_cnt2gps, lgw_gps2cnt, hni]

/-- Claim C6 (amended): each of the four conversions returns the error
sentinel without writing its output (modelled by `none`) if and only if
`ref.systime = 0` or `ref.xtal_err` lies STRICTLY outside the closed interval
[0.99999, 1.00001] (i.e. `xtal_err > 1.00001` or `xtal_err < 0.99999`);
otherwise it returns success. -/
theorem C6_theorem (ref : Tref) (c : ℕ) (t g : Timespec) :
    (lgw_cnt2utc ref c = none ↔
      ref.systime = 0 ∨ ref.xtal_err > PLUS_10PPM ∨ ref.xtal_err < MINUS_10PPM) ∧
    (lgw_utc2cnt ref t = none ↔
      ref.systime = 0 ∨ ref.xtal_err > PLUS_10PPM ∨ ref.xtal_err < MINUS_10PPM) ∧
    (lgw_cnt2gps ref c = none ↔
      ref.systime = 0 ∨ ref.xtal_err > PLUS_10PPM ∨ ref.xtal_err < MINUS_10PPM) ∧
    (lgw_gps2cnt ref g = none ↔
      ref.systime = 0 ∨ ref.xtal_err > PLUS_10PPM ∨ ref.xtal_err < MINUS_10PPM) := by
  unfold lgw_cnt2utc lgw_utc2cnt lgw_cnt2gps lgw_gps2cnt ref_invalid
  refine ⟨?_, ?_, ?_, ?_⟩ <;> split_ifs with h <;> simp [h]

/-! ### Claim C5 — conversion round trip within one microsecond -/

theorem truncQ_of_nonneg (q : ℚ) (h : 0 ≤ q) : truncQ q = ⌊q⌋ := by
  rw [truncQ, if_pos h]

/-- Key bound: reconstructing the counter delta from the truncated
second/nanosecond decomposition loses less than one microsecond. `D` is the
wrapped counter difference, `ε` the crystal-error slope; `ip` and `n9` are the
integral second part and the truncated nanosecond part produced by
`cnt2time_body`. -/
theorem trunc_roundtrip_bounds (D : ℕ) (ε : ℚ) (h0 : 0 < ε) (h2 : ε < 2)
    (ip n9 : ℤ) (hip : ip = ⌊(D : ℚ) / (TS_CPS * ε)⌋)
    (hn9 : n9 = ⌊((D : ℚ) / (TS_CPS * ε) - (ip : ℚ)) * 1000000000⌋) :
    (truncQ (((ip : ℚ) + (1 / 1000000000) * (n9 : ℚ)) * TS_CPS * ε)).toNat = D ∨
    (1 ≤ D ∧ (truncQ (((ip : ℚ) + (1 / 1000000000) * (n9 : ℚ)) * TS_CPS * ε)).toNat = D - 1) := by
  have hTSpos : (0 : ℚ) < TS_CPS := by norm_num [TS_CPS]
  have hden : (0 : ℚ) < TS_CPS * ε := mul_pos hTSpos h0
  set x : ℚ := (D : ℚ) / (TS_CPS * ε) with hx
  clear_value x
  have hx0 : 0 ≤ x := by rw [hx]; exact div_nonneg (Nat.cast_nonneg D) hden.le
  have hipfl : (ip : ℚ) ≤ x := hip ▸ Int.floor_le x
  have hip0 : 0 ≤ ip := hip ▸ Int.floor_nonneg.2 hx0
  have hip0' : (0 : ℚ) ≤ (ip : ℚ) := by exact_mod_cast hip0
  have hfr0 : 0 ≤ x - (ip : ℚ) := by linarith
  have hn9a : (n9 : ℚ) ≤ (x - (ip : ℚ)) * 1000000000 := hn9 ▸ Int.floor_le _
  have hn9b : (x - (ip : ℚ)) * 1000000000 - 1 < (n9 : ℚ) := by
    have h := Int.lt_floor_add_one ((x - (ip : ℚ)) * 1000000000)
    rw [← hn9] at h
    push_cast at h
    linarith
  have hn90 : 0 ≤ n9 := hn9 ▸ Int.floor_nonneg.2 (by positivity)
  have hn90' : (0 : ℚ) ≤ (n9 : ℚ) := by exact_mod_cast hn90
  set d : ℚ := (ip : ℚ) + (1 / 1000000000) * (n9 : ℚ) with hd
  clear_value d
  have hd_le : d ≤ x := by
    have e1 : (1 / 1000000000 : ℚ) * (n9 : ℚ) ≤
        (1 / 1000000000) * ((x - (ip : ℚ)) * 1000000000) :=
      mul_le_mul_of_nonneg_left hn9a (by norm_num)
    have e1' : (1 / 1000000000 : ℚ) * ((x - (ip : ℚ)) * 1000000000) = x - (ip : ℚ) := by ring
    rw [hd]; linarith
  have hd_gt : x - 1 / 1000000000 < d := by
    have e2 : (1 / 1000000000 : ℚ) * ((x - (ip : ℚ)) * 1000000000 - 1) <
        (1 / 1000000000) * (n9 : ℚ) := by
      have := mul_lt_mul_of_pos_left hn9b (show (0 : ℚ) < 1 / 1000000000 by norm_num)
      linarith
    have e2' : (1 / 1000000000 : ℚ) * ((x - (ip : ℚ)) * 1000000000 - 1)
        = x - (ip : ℚ) - 1 / 1000000000 := by ring
    rw [hd]; linarith
  have hd0 : 0 ≤ d := by
    have := mul_nonneg (show (0 : ℚ) ≤ 1 / 1000000000 by norm_num) hn90'
    rw [hd]; linarith
  set v : ℚ := d * TS_CPS * ε with hv
  clear_value v
  have hxD : x * TS_CPS * ε = (D : ℚ) := by
    rw [mul_assoc, hx]
    exact div_mul_cancel₀ (D : ℚ) hden.ne'
  have hv_le : v ≤ (D : ℚ) := by
    have s1 : d * TS_CPS ≤ x * TS_CPS := mul_le_mul_of_nonneg_right hd_le hTSpos.le
    have s2 : d * TS_CPS * ε ≤ x * TS_CPS * ε := mul_le_mul_of_nonneg_right s1 h0.le
    rw [hv]; linarith [hxD]
  have hv_gt : (D : ℚ) - 1 < v := by
    have s3 : (x - 1 / 1000000000) * (TS_CPS * ε) < d * (TS_CPS * ε) :=
      mul_lt_mul_of_pos_right hd_gt hden
    have hxT : x * (TS_CPS * ε) = (D : ℚ) := by
      rw [hx]; exact div_mul_cancel₀ (D : ℚ) hden.ne'
    have s5 : (x - 1 / 1000000000) * (TS_CPS * ε)
        = (D : ℚ) - TS_CPS * ε * (1 / 1000000000) := by
      calc (x - 1 / 1000000000) * (TS_CPS * ε)
          = x * (TS_CPS * ε) - TS_CPS * ε * (1 / 1000000000) := by ring
        _ = (D : ℚ) - TS_CPS * ε * (1 / 1000000000) := by rw [hxT]
    have s6 : TS_CPS * ε * (1 / 1000000000) < 1 := by
      have hTd : (TS_CPS : ℚ) * (1 / 1000000000) = 1 / 1000 := by norm_num [TS_CPS]
      calc TS_CPS * ε * (1 / 1000000000) = TS_CPS * (1 / 1000000000) * ε := by ring
        _ = (1 / 1000) * ε := by rw [hTd]
        _ < (1 / 1000) * 2 := by linarith
        _ < 1 := by norm_num
    have hveq : v = d * (TS_CPS * ε) := by rw [hv]; ring
    rw [hveq]; linarith [s3, s5, s6]
  have hv0 : 0 ≤ v := by
    have := mul_nonneg (mul_nonneg hd0 hTSpos.le) h0.le
    rw [hv]; linarith
  have htr : truncQ v = ⌊v⌋ := truncQ_of_nonneg v hv0
  have hfle : ⌊v⌋ ≤ (D : ℤ) := by
    have := Int.floor_le_floor hv_le
    simpa using this
  have hfge : (D : ℤ) - 1 ≤ ⌊v⌋ := by
    apply Int.le_floor.2
    push_cast
    linarith
  have hfl0 : 0 ≤ ⌊v⌋ := Int.floor_nonneg.2 hv0
  rw [htr]
  omega

/-- The wrapped difference plus the reference counter reproduces the counter. -/
theorem u32sub_add (a b : ℕ) (ha : a < U32M) (hb : b < U32M) :
    (b + u32sub a b) % U32M = a := by
  simp only [u32sub, U32M] at ha hb ⊢
  omega

/-- Generic round trip for the shared conversion bodies: converting a counter
to a timespec and back returns the counter, or the counter minus one
microsecond (truncation loss), modulo 2^32. -/
theorem body_roundtrip (base : Timespec) (refc : ℕ) (ε : ℚ) (c : ℕ)
    (h0 : 0 < ε) (h2 : ε < 2) (hc : c < U32M) (hrc : refc < U32M) :
    time2cnt_body base refc ε (cnt2time_body base refc ε c) = c ∨
    ((time2cnt_body base refc ε (cnt2time_body base refc ε c) + 1) % U32M = c ∧
      1 ≤ u32sub c refc) := by
  have hTSpos : (0 : ℚ) < TS_CPS := by norm_num [TS_CPS]
  have hden : (0 : ℚ) < TS_CPS * ε := mul_pos hTSpos h0
  set D : ℕ := u32sub c refc with hD
  have hDlt : D < U32M := by
    rw [hD]; simp only [u32sub, U32M]; omega
  set x : ℚ := (D : ℚ) / (TS_CPS * ε) with hx
  have hx0 : 0 ≤ x := div_nonneg (Nat.cast_nonneg D) hden.le
  have hipeq : truncQ x = ⌊x⌋ := truncQ_of_nonneg x hx0
  set ip : ℤ := ⌊x⌋ with hip
  set n9 : ℤ := ⌊(x - (ip : ℚ)) * 1000000000⌋ with hn9
  have hfr0 : 0 ≤ x - (ip : ℚ) := by
    have : (ip : ℚ) ≤ x := hip ▸ Int.floor_le x
    linarith
  have hn9tr : truncQ ((x - (ip : ℚ)) * 1000000000) = n9 := by
    rw [truncQ_of_nonneg _ (mul_nonneg hfr0 (by norm_num)), hn9]
  have hkey := trunc_roundtrip_bounds D ε h0 h2 ip n9 (by rw [hip, hx]) (by rw [hn9, hx])
  set k : ℕ := (truncQ (((ip : ℚ) + (1 / 1000000000) * (n9 : ℚ)) * TS_CPS * ε)).toNat with hk
  have hbody : time2cnt_body base refc ε (cnt2time_body base refc ε c) = (refc + k) % U32M := by
    simp only [cnt2time_body, time2cnt_body, ← hD, ← hx, hipeq, ← hip, hn9tr]
    by_cases hcarry : base.tv_nsec + n9 < 1000000000
    · rw [if_pos hcarry]
      have hts : ts_diff ⟨base.tv_sec + ip, base.tv_nsec + n9⟩ base
          = (ip : ℚ) + (1 / 1000000000) * (n9 : ℚ) := by
        unfold ts_diff; push_cast; ring
      rw [hts, hk]
    · rw [if_neg hcarry]
      have hts : ts_diff ⟨base.tv_sec + ip + 1, base.tv_nsec + n9 - 1000000000⟩ base
          = (ip : ℚ) + (1 / 1000000000) * (n9 : ℚ) := by
        unfold ts_diff; push_cast; ring
      rw [hts, hk]
    -- any leftover side conditions are arithmetic identities
  rw [hbody]
  have hfin : (refc + D) % U32M = c := by
    have := u32sub_add c refc hc hrc
    rw [← hD] at this
    exact this
  simp only [U32M] at hfin hDlt ⊢
  clear_value k
  clear_value D
  rcases hkey with h | ⟨hD1, h⟩
  · left; omega
  · right
    constructor
    · omega
    · omega

/-- Claim C5: for every valid reference (`systime ≠ 0`, `xtal_err` inside
(0.99999, 1.00001)) and every counter value within ±1800 seconds of
`ref.count_us`, converting counter → UTC → counter returns the original
counter to within ±1 µs (modulo 2^32), and likewise for the GPS pair. -/
theorem C5_theorem (ref : Tref) (c : ℕ)
    (hs : ref.systime ≠ 0) (hm : MINUS_10PPM < ref.xtal_err) (hp : ref.xtal_err < PLUS_10PPM)
    (hc : c < U32M) (hrc : ref.count_us < U32M)
    (hnear : u32sub c ref.count_us ≤ 1800000000 ∨
      U32M - 1800000000 ≤ u32sub c ref.count_us) :
    (∃ t cnt_back, lgw_cnt2utc ref c = some t ∧ lgw_utc2cnt ref t = some cnt_back ∧
      (cnt_back = c ∨ (cnt_back + 1) % U32M = c)) ∧
    (∃ t cnt_back, lgw_cnt2gps ref c = some t ∧ lgw_gps2cnt ref t = some cnt_back ∧
      (cnt_back = c ∨ (cnt_back + 1) % U32M = c)) := by
  have h0 : (0 : ℚ) < ref.xtal_err := lt_trans (by norm_num [MINUS_10PPM]) hm
  have h2 : ref.xtal_err < 2 := lt_trans hp (by norm_num [PLUS_10PPM])
  have hni : ¬ ref_invalid ref := by
    rintro (h | h | h)
    · exact hs h
    · exact absurd hp (not_lt.2 h.le)
    · exact absurd hm (not_lt.2 h.le)
  constructor
  · refine ⟨cnt2time_body ref.utc ref.count_us ref.xtal_err c,
      time2cnt_body ref.utc ref.count_us ref.xtal_err
        (cnt2time_body ref.utc ref.count_us ref.xtal_err c), ?_, ?_, ?_⟩
    · rw [lgw_cnt2utc, if_neg hni]
    · rw [lgw_utc2cnt, if_neg hni]
    · rcases body_roundtrip ref.utc ref.count_us ref.xtal_err c h0 h2 hc hrc with h | ⟨h, _⟩
      · exact Or.inl h
      · exact Or.inr h
  · refine ⟨cnt2time_body ref.gps ref.count_us ref.xtal_err c,
      time2cnt_body ref.gps ref.count_us ref.xtal_err
        (cnt2time_body ref.gps ref.count_us ref.xtal_err c), ?_, ?_, ?_⟩
    · rw [lgw_cnt2gps, if_neg hni]
    · rw [lgw_gps2cnt, if_neg hni]
    · rcases body_roundtrip ref.gps ref.count_us ref.xtal_err c h0 h2 hc hrc with h | ⟨h, _⟩
      · exact Or.inl h
      · exact Or.inr h

/-- Claim C5 (witness): reference `(systime=1, count_us=0, utc=(50s,123ns),
gps=(60s,5ns), xtal_err=1)` and counter 1500000000 (1500 s ahead): both round
trips return the exact counter. -/
theorem C5_witness :
    ((⟨1, 0, ⟨50, 123⟩, ⟨60, 5⟩, 1⟩ : Tref).systime ≠ 0 ∧
     MINUS_10PPM < (⟨1, 0, ⟨50, 123⟩, ⟨60, 5⟩, 1⟩ : Tref).xtal_err ∧
     (⟨1, 0, ⟨50, 123⟩, ⟨60, 5⟩, 1⟩ : Tref).xtal_err < PLUS_10PPM ∧
     1500000000 < U32M ∧
     (⟨1, 0, ⟨50, 123⟩, ⟨60, 5⟩, 1⟩ : Tref).count_us < U32M ∧
     (u32sub 1500000000 (⟨1, 0, ⟨50, 123⟩, ⟨60, 5⟩, 1⟩ : Tref).count_us ≤ 1800000000 ∨
      U32M - 1800000000 ≤ u32sub 1500000000 (⟨1, 0, ⟨50, 123⟩, ⟨60, 5⟩, 1⟩ : Tref).count_us)) ∧
    ((∃ t cnt_back, lgw_cnt2utc ⟨1, 0, ⟨50, 123⟩, ⟨60, 5⟩, 1⟩ 1500000000 = some t ∧
        lgw_utc2cnt ⟨1, 0, ⟨50, 123⟩, ⟨60, 5⟩, 1⟩ t = some cnt_back ∧
        (cnt_back = 1500000000 ∨ (cnt_back + 1) % U32M = 1500000000)) ∧
     (∃ t cnt_back, lgw_cnt2gps ⟨1, 0, ⟨50, 123⟩, ⟨60, 5⟩, 1⟩ 1500000000 = some t ∧
        lgw_gps2cnt ⟨1, 0, ⟨50, 123⟩, ⟨60, 5⟩, 1⟩ t = some cnt_back ∧
        (cnt_back = 1500000000 ∨ (cnt_back + 1) % U32M = 1500000000))) := by
  refine ⟨⟨by norm_num, by norm_num [MINUS_10PPM], by norm_num [PLUS_10PPM], by norm_num [U32M],
    by norm_num [U32M], Or.inl (by norm_num [u32sub, U32M])⟩, ?_⟩
  exact C5_theorem ⟨1, 0, ⟨50, 123⟩, ⟨60, 5⟩, 1⟩ 1500000000 (by norm_num)
    (by norm_num [MINUS_10PPM]) (by norm_num [PLUS_10PPM]) (by norm_num [U32M])
    (by norm_num [U32M]) (Or.inl (by norm_num [u32sub, U32M]))

/-! ### The UBX frame parser -/

/-- Byte of a buffer with default 0 (used to state properties about bytes the
code provably reads in bounds). -/
def byteD (bs : List ℕ) (i : ℕ) : ℕ := (bs[i]?).getD 0

theorem byteD_eq (bs : List ℕ) (i : ℕ) (h : i < bs.length) :
    bs[i]? = some (byteD bs i) := by
  simp [byteD, List.getElem?_eq_getElem h]

/-- Reinterpret a 32-bit pattern as `int32_t` (two's complement). -/
def toI32 (n : ℕ) : ℤ :=
  if n % 4294967296 < 2147483648 then ((n % 4294967296 : ℕ) : ℤ)
  else ((n % 4294967296 : ℕ) : ℤ) - 4294967296

/-- Reinterpret a 16-bit pattern as `int16_t` (two's complement). -/
def toI16 (n : ℕ) : ℤ :=
  if n % 65536 < 32768 then ((n % 65536 : ℕ) : ℤ)
  else ((n % 65536 : ℕ) : ℤ) - 65536

/-- The 8-bit Fletcher checksum loop of `lgw_parse_ubx`:
`for (i=0; i<n; i++) { ck_a += buf[i+2]; ck_b += ck_a; }`, with fallible
byte reads. -/
def fletcher8 (bs : List ℕ) : ℕ → Option (ℕ × ℕ)
  | 0 => some (0, 0)
  | n + 1 =>
    match fletcher8 bs n with
    | none => none
    | some p =>
      match bs[n + 2]? with
      | none => none
      | some x =>
        let a := (p.1 + x) % 256
        some (a, (p.2 + a) % 256)

theorem fletcher8_isSome (bs : List ℕ) (n : ℕ) (h : n + 2 ≤ bs.length) :
    (fletcher8 bs n).isSome = true := by
  induction n with
  | zero => simp [fletcher8]
  | succ k ih =>
    have h1 : (fletcher8 bs k).isSome = true := ih (by omega)
    obtain ⟨p, hp⟩ := Option.isSome_iff_exists.mp h1
    have h2 : bs[k + 2]? = some (byteD bs (k + 2)) := byteD_eq bs (k + 2) (by omega)
    simp [fletcher8, hp, h2]

/-- `lgw_parse_ubx`: classify a candidate UBX frame, update the fix snapshot,
report the message size. Each buffer access is a fallible read (`none` = the C
code reads out of the `buff_size`-byte buffer). The snapshot is threaded
through; `msg_size` is the second component of the result. -/
def lgw_parse_ubx (bs : List ℕ) (st : FixUbx) : Option (GpsMsg × ℕ × FixUbx) :=
  if bs.length < 8 then some (.IGNORED, 0, st)
  else
    match bs[0]? with
    | none => none
    | some b0 =>
      match bs[1]? with
      | none => none
      | some b1 =>
        if b0 = 181 ∧ b1 = 98 then
          match bs[4]? with
          | none => none
          | some b4 =>
            match bs[5]? with
            | none => none
            | some b5 =>
              let payload_length := b4 + b5 * 256
              let msg_size := 6 + payload_length + 2
              if msg_size ≤ bs.length then
                match bs[msg_size - 2]? with
                | none => none
                | some ck_a_rcv =>
                  match bs[msg_size - 1]? with
                  | none => none
                  | some ck_b_rcv =>
                    match fletcher8 bs (4 + payload_length) with
                    | none => none
                    | some ck =>
                      if ck.1 = ck_a_rcv ∧ ck.2 = ck_b_rcv then
                        match bs[2]? with
                        | none => none
                        | some b2 =>
                          match bs[3]? with
                          | none => none
                          | some b3 =>
                            if b2 = 1 ∧ b3 = 32 then
                              match bs[17]? with
                              | none => none
                              | some b17 =>
                                if b17 % 4 ≠ 0 then
                                  match bs[6]?, bs[7]?, bs[8]?, bs[9]? with
                                  | some b6, some b7, some b8, some b9 =>
                                    match bs[10]?, bs[11]?, bs[12]?, bs[13]? with
                                    | some b10, some b11, some b12, some b13 =>
                                      match bs[14]?, bs[15]? with
                                      | some b14, some b15 =>
                                        some (.UBX_NAV_TIMEGPS, msg_size,
                                          { gps_iTOW := b6 + b7 * 256 + b8 * 65536 +
                                              b9 * 16777216,
                                            gps_fTOW := toI32 (b10 + b11 * 256 + b12 * 65536 +
                                              b13 * 16777216),
                                            gps_week := toI16 (b14 + b15 * 256),
                                            gps_time_ok := true })
                                      | _, _ => none
                                    | _, _, _, _ => none
                                  | _, _, _, _ => none
                                else
                                  some (.UBX_NAV_TIMEGPS, msg_size,
                                    { st with gps_time_ok := false })
                            else if b2 = 5 ∧ b3 = 0 then some (.IGNORED, msg_size, st)
                            else if b2 = 5 ∧ b3 = 1 then some (.IGNORED, msg_size, st)
                            else some (.IGNORED, msg_size, st)
                      else some (.INVALID, msg_size, st)
              else some (.INCOMPLETE, msg_size, st)
        else some (.IGNORED, 0, st)

/-! ### Claim C7 — incomplete UBX frames -/

/-- Claim C7: every buffer of at least 8 bytes starting with the UBX sync
bytes whose declared message size `6 + payload_length + 2` (payload length
little-endian at bytes 4-5) strictly exceeds the buffer length is classified
`INCOMPLETE`, the would-be total size is reported through `msg_size`, and the
fix snapshot is untouched. -/
theorem C7_theorem (bs : List ℕ) (st : FixUbx)
    (hlen : 8 ≤ bs.length)
    (h0 : byteD bs 0 = 181) (h1 : byteD bs 1 = 98)
    (hover : bs.length < 6 + (byteD bs 4 + byteD bs 5 * 256) + 2) :
    lgw_parse_ubx bs st
      = some (.INCOMPLETE, 6 + (byteD bs 4 + byteD bs 5 * 256) + 2, st) := by
  have hb0 := byteD_eq bs 0 (by omega)
  have hb1 := byteD_eq bs 1 (by omega)
  have hb4 := byteD_eq bs 4 (by omega)
  have hb5 := byteD_eq bs 5 (by omega)
  have hn8 : ¬ bs.length < 8 := by omega
  have hfit : ¬ (6 + (byteD bs 4 + byteD bs 5 * 256) + 2 ≤ bs.length) := by omega
  simp only [lgw_parse_ubx, hb0, hb1, hb4, hb5, h0, h1]
  rw [if_neg hn8, if_pos ⟨trivial, trivial⟩, if_neg hfit]

/-- Claim C7 (witness): a truncated NAV-TIMEGPS header (8 bytes, declared
payload 16) yields `INCOMPLETE` with reported size 24 and unchanged state. -/
theorem C7_witness :
    (8 ≤ ([181, 98, 1, 32, 16, 0, 0, 0] : List ℕ).length ∧
     byteD [181, 98, 1, 32, 16, 0, 0, 0] 0 = 181 ∧
     byteD [181, 98, 1, 32, 16, 0, 0, 0] 1 = 98 ∧
     ([181, 98, 1, 32, 16, 0, 0, 0] : List ℕ).length
       < 6 + (byteD [181, 98, 1, 32, 16, 0, 0, 0] 4 +
           byteD [181, 98, 1, 32, 16, 0, 0, 0] 5 * 256) + 2) ∧
    lgw_parse_ubx [181, 98, 1, 32, 16, 0, 0, 0] ⟨0, 0, 0, false⟩
      = some (.INCOMPLETE, 24, ⟨0, 0, 0, false⟩) := by
  refine ⟨⟨by decide, by decide, by decide, by decide⟩, ?_⟩
  exact C7_theorem [181, 98, 1, 32, 16, 0, 0, 0] ⟨0, 0, 0, false⟩ (by decide) (by decide)
    (by decide) (by decide)

/-! ### Claim C1 — NAV-TIMEGPS validity bits -/

/-- A 24-byte checksum-valid NAV-TIMEGPS frame whose validity byte (byte 17)
has only bit 0 (towValid) set; bit 1 (weekValid) is clear. -/
def navFrameTowOnly : List ℕ :=
  [181, 98, 1, 32, 16, 0, 0, 0, 0, 0, 0, 0, 0, 0, 0, 0, 0, 1, 0, 0, 0, 0, 50, 153]

/-- Claim C1 (counterexample): on a checksum-valid NAV-TIMEGPS frame with
towValid set but weekValid CLEAR (byte 17 = 0x01), the code still decodes the
time fields and sets `gps_time_ok = true` — `valid = serial_buff[17] & 0x3`
converted to `bool` is true when EITHER bit is set, not only when both are. -/
theorem C1_counterexample :
    lgw_parse_ubx navFrameTowOnly ⟨0, 0, 0, false⟩
        = some (.UBX_NAV_TIMEGPS, 24, ⟨0, 0, 0, true⟩) ∧
    byteD navFrameTowOnly 17 % 2 = 1 ∧
    byteD navFrameTowOnly 17 / 2 % 2 = 0 := by
  refine ⟨by decide, by decide, by decide⟩

/-- Claim C1 (amended): for every buffer accepted as a checksum-valid UBX
frame with class 0x01 and ID 0x20 (sync bytes, payload length ≥ 12 so that
the validity byte lies inside the message, complete in the buffer, Fletcher
checksum matching), the function returns `UBX_NAV_TIMEGPS` with the declared
message size, and: `gps_time_ok` is set iff byte 17 has AT LEAST ONE of bit 0
(towValid) and bit 1 (weekValid) set, in which case `gps_iTOW` (u32 LE at 6),
`gps_fTOW` (i32 LE at 10) and `gps_week` (i16 LE at 14) are decoded; if both
bits are clear, `gps_time_ok` is cleared and the time fields are not
updated. -/
theorem C1_theorem (bs : List ℕ) (st : FixUbx)
    (h0 : byteD bs 0 = 181) (h1 : byteD bs 1 = 98)
    (hpl12 : 12 ≤ byteD bs 4 + byteD bs 5 * 256)
    (hfit : 6 + (byteD bs 4 + byteD bs 5 * 256) + 2 ≤ bs.length)
    (hck : fletcher8 bs (4 + (byteD bs 4 + byteD bs 5 * 256)) =
      some (byteD bs (6 + (byteD bs 4 + byteD bs 5 * 256)),
            byteD bs (6 + (byteD bs 4 + byteD bs 5 * 256) + 1)))
    (hcls : byteD bs 2 = 1) (hid : byteD bs 3 = 32) :
    ∃ st', lgw_parse_ubx bs st
        = some (.UBX_NAV_TIMEGPS, 6 + (byteD bs 4 + byteD bs 5 * 256) + 2, st') ∧
      (st'.gps_time_ok = true ↔ byteD bs 17 % 4 ≠ 0) ∧
      (byteD bs 17 % 4 = 0 → st' = { st with gps_time_ok := false }) ∧
      (byteD bs 17 % 4 ≠ 0 →
        st'.gps_iTOW = byteD bs 6 + byteD bs 7 * 256 + byteD bs 8 * 65536 +
            byteD bs 9 * 16777216 ∧
        st'.gps_fTOW = toI32 (byteD bs 10 + byteD bs 11 * 256 + byteD bs 12 * 65536 +
            byteD bs 13 * 16777216) ∧
        st'.gps_week = toI16 (byteD bs 14 + byteD bs 15 * 256)) := by
  have hlen : 20 ≤ bs.length := by omega
  have hb0 := byteD_eq bs 0 (by omega)
  have hb1 := byteD_eq bs 1 (by omega)
  have hb2 := byteD_eq bs 2 (by omega)
  have hb3 := byteD_eq bs 3 (by omega)
  have hb4 := byteD_eq bs 4 (by omega)
  have hb5 := byteD_eq bs 5 (by omega)
  have hb17 := byteD_eq bs 17 (by omega)
  have hbck1 := byteD_eq bs (6 + (byteD bs 4 + byteD bs 5 * 256)) (by omega)
  have hbck2 := byteD_eq bs (6 + (byteD bs 4 + byteD bs 5 * 256) + 1) (by omega)
  have e2 : 6 + (byteD bs 4 + byteD bs 5 * 256) + 2 - 2
      = 6 + (byteD bs 4 + byteD bs 5 * 256) := by omega
  have e1 : 6 + (byteD bs 4 + byteD bs 5 * 256) + 2 - 1
      = 6 + (byteD bs 4 + byteD bs 5 * 256) + 1 := by omega
  simp only [lgw_parse_ubx, hb0, hb1, hb4, hb5, h0, h1]
  rw [if_neg (by omega), if_pos ⟨trivial, trivial⟩, if_pos hfit]
  simp only [e2, e1, hbck1, hbck2, hck, hb2, hb3, hcls, hid, eq_self_iff_true, and_self,
    if_true, hb17]
  by_cases hv : byteD bs 17 % 4 = 0
  · rw [if_neg (not_not_intro hv)]
    exact ⟨{ st with gps_time_ok := false }, rfl, by simp [hv], fun _ => rfl,
      fun hcon => absurd hv hcon⟩
  · rw [if_pos hv]
    have hb6 := byteD_eq bs 6 (by omega)
    have hb7 := byteD_eq bs 7 (by omega)
    have hb8 := byteD_eq bs 8 (by omega)
    have hb9 := byteD_eq bs 9 (by omega)
    have hb10 := byteD_eq bs 10 (by omega)
    have hb11 := byteD_eq bs 11 (by omega)
    have hb12 := byteD_eq bs 12 (by omega)
    have hb13 := byteD_eq bs 13 (by omega)
    have hb14 := byteD_eq bs 14 (by omega)
    have hb15 := byteD_eq bs 15 (by omega)
    simp only [hb6, hb7, hb8, hb9, hb10, hb11, hb12, hb13, hb14, hb15]
    exact ⟨_, rfl, by simp [hv], fun hcon => absurd hcon hv, fun _ => ⟨rfl, rfl, rfl⟩⟩

/-- A 24-byte checksum-valid NAV-TIMEGPS frame with iTOW = 0x0ABCDE00,
fTOW = 0, week = 2200 and both validity bits set (byte 17 = 0x03). -/
def navFrameValid : List ℕ :=
  [181, 98, 1, 32, 16, 0, 0, 222, 188, 10, 0, 0, 0, 0, 152, 8, 0, 3, 0, 0, 0, 0, 120, 103]

/-- Claim C1 (witness): the valid frame decodes iTOW/fTOW/week and sets the
time-valid flag. -/
theorem C1_witness :
    (byteD navFrameValid 0 = 181 ∧ byteD navFrameValid 1 = 98 ∧
     12 ≤ byteD navFrameValid 4 + byteD navFrameValid 5 * 256 ∧
     6 + (byteD navFrameValid 4 + byteD navFrameValid 5 * 256) + 2 ≤ navFrameValid.length ∧
     fletcher8 navFrameValid (4 + (byteD navFrameValid 4 + byteD navFrameValid 5 * 256)) =
       some (byteD navFrameValid (6 + (byteD navFrameValid 4 + byteD navFrameValid 5 * 256)),
         byteD navFrameValid (6 + (byteD navFrameValid 4 + byteD navFrameValid 5 * 256) + 1)) ∧
     byteD navFrameValid 2 = 1 ∧ byteD navFrameValid 3 = 32) ∧
    (∃ st', lgw_parse_ubx navFrameValid ⟨7, 8, 9, false⟩
        = some (.UBX_NAV_TIMEGPS,
            6 + (byteD navFrameValid 4 + byteD navFrameValid 5 * 256) + 2, st') ∧
      (st'.gps_time_ok = true ↔ byteD navFrameValid 17 % 4 ≠ 0) ∧
      (byteD navFrameValid 17 % 4 = 0 →
        st' = { (⟨7, 8, 9, false⟩ : FixUbx) with gps_time_ok := false }) ∧
      (byteD navFrameValid 17 % 4 ≠ 0 →
        st'.gps_iTOW = byteD navFrameValid 6 + byteD navFrameValid 7 * 256 +
            byteD navFrameValid 8 * 65536 + byteD navFrameValid 9 * 16777216 ∧
        st'.gps_fTOW = toI32 (byteD navFrameValid 10 + byteD navFrameValid 11 * 256 +
            byteD navFrameValid 12 * 65536 + byteD navFrameValid 13 * 16777216) ∧
        st'.gps_week = toI16 (byteD navFrameValid 14 + byteD navFrameValid 15 * 256))) := by
  refine ⟨⟨by decide, by decide, by decide, by decide, by decide, by decide, by decide⟩, ?_⟩
  exact C1_theorem navFrameValid ⟨7, 8, 9, false⟩ (by decide) (by decide) (by decide)
    (by decide) (by decide) (by decide) (by decide)

/-! ### Claim C9 — in-bounds buffer accesses -/

/-- Claim C9 (counterexample): the 8-byte checksum-valid NAV-TIMEGPS frame
with payload_length = 0 drives the code to read byte 17 of an 8-byte buffer:
the Option-indexing embedding hits the out-of-range branch (`none`). -/
theorem C9_counterexample :
    lgw_parse_ubx [181, 98, 1, 32, 0, 0, 33, 100] ⟨0, 0, 0, false⟩ = none := by
  decide

/-- Claim C9 (amended): `lgw_parse_ubx` reads only indices strictly below the
buffer length — the fallible embedding returns `some` — for every buffer
whose declared payload length (bytes 4-5) is at least 12, and for every
buffer whose class/ID bytes are not (0x01, 0x20); a checksum-valid frame
classed NAV-TIMEGPS with payload length below 12 reads byte 17 beyond the
declared message and possibly beyond the buffer. -/
theorem C9_theorem (bs : List ℕ) (st : FixUbx)
    (h : 12 ≤ byteD bs 4 + byteD bs 5 * 256 ∨ ¬(byteD bs 2 = 1 ∧ byteD bs 3 = 32)) :
    (lgw_parse_ubx bs st).isSome = true := by
  by_cases hlen : bs.length < 8
  · simp [lgw_parse_ubx, hlen]
  push_neg at hlen
  have hb0 := byteD_eq bs 0 (by omega)
  have hb1 := byteD_eq bs 1 (by omega)
  have hb2 := byteD_eq bs 2 (by omega)
  have hb3 := byteD_eq bs 3 (by omega)
  have hb4 := byteD_eq bs 4 (by omega)
  have hb5 := byteD_eq bs 5 (by omega)
  simp only [lgw_parse_ubx, hb0, hb1, hb4, hb5]
  rw [if_neg (by omega)]
  by_cases hsync : byteD bs 0 = 181 ∧ byteD bs 1 = 98
  case neg => rw [if_neg hsync]; simp
  rw [if_pos hsync]
  by_cases hfit : 6 + (byteD bs 4 + byteD bs 5 * 256) + 2 ≤ bs.length
  case neg => rw [if_neg hfit]; simp
  rw [if_pos hfit]
  have hbck1 := byteD_eq bs (6 + (byteD bs 4 + byteD bs 5 * 256)) (by omega)
  have hbck2 := byteD_eq bs (6 + (byteD bs 4 + byteD bs 5 * 256) + 1) (by omega)
  have e2 : 6 + (byteD bs 4 + byteD bs 5 * 256) + 2 - 2
      = 6 + (byteD bs 4 + byteD bs 5 * 256) := by omega
  have e1 : 6 + (byteD bs 4 + byteD bs 5 * 256) + 2 - 1
      = 6 + (byteD bs 4 + byteD bs 5 * 256) + 1 := by omega
  have hfl : (fletcher8 bs (4 + (byteD bs 4 + byteD bs 5 * 256))).isSome = true :=
    fletcher8_isSome bs (4 + (byteD bs 4 + byteD bs 5 * 256)) (by omega)
  obtain ⟨ck, hckv⟩ := Option.isSome_iff_exists.mp hfl
  simp only [e2, e1, hbck1, hbck2, hckv]
  by_cases hcksum : ck.1 = byteD bs (6 + (byteD bs 4 + byteD bs 5 * 256)) ∧
      ck.2 = byteD bs (6 + (byteD bs 4 + byteD bs 5 * 256) + 1)
  case neg => rw [if_neg hcksum]; simp
  rw [if_pos hcksum]
  simp only [hb2, hb3]
  by_cases hnav : byteD bs 2 = 1 ∧ byteD bs 3 = 32
  case neg =>
    rw [if_neg hnav]
    split_ifs <;> simp
  rw [if_pos hnav]
  have hpl12 : 12 ≤ byteD bs 4 + byteD bs 5 * 256 := by
    rcases h with h | h
    · exact h
    · exact absurd hnav h
  have hb17 := byteD_eq bs 17 (by omega)
  simp only [hb17]
  by_cases hv : byteD bs 17 % 4 ≠ 0
  case neg => rw [if_neg hv]; simp
  rw [if_pos hv]
  have hb6 := byteD_eq bs 6 (by omega)
  have hb7 := byteD_eq bs 7 (by omega)
  have hb8 := byteD_eq bs 8 (by omega)
  have hb9 := byteD_eq bs 9 (by omega)
  have hb10 := byteD_eq bs 10 (by omega)
  have hb11 := byteD_eq bs 11 (by omega)
  have hb12 := byteD_eq bs 12 (by omega)
  have hb13 := byteD_eq bs 13 (by omega)
  have hb14 := byteD_eq bs 14 (by omega)
  have hb15 := byteD_eq bs 15 (by omega)
  simp only [hb6, hb7, hb8, hb9, hb10, hb11, hb12, hb13, hb14, hb15]
  simp

/-- Claim C9 (witness): a frame with declared payload 16 (≥ 12) is processed
without any out-of-bounds read. -/
theorem C9_witness :
    (12 ≤ byteD [181, 98, 5, 0, 16, 0, 9, 9] 4 + byteD [181, 98, 5, 0, 16, 0, 9, 9] 5 * 256 ∨
     ¬(byteD [181, 98, 5, 0, 16, 0, 9, 9] 2 = 1 ∧ byteD [181, 98, 5, 0, 16, 0, 9, 9] 3 = 32)) ∧
    (lgw_parse_ubx [181, 98, 5, 0, 16, 0, 9, 9] ⟨0, 0, 0, false⟩).isSome = true :=
  ⟨Or.inl (by decide),
   C9_theorem [181, 98, 5, 0, 16, 0, 9, 9] ⟨0, 0, 0, false⟩ (Or.inl (by decide))⟩

/-! ### The NMEA frame parser (classification) -/

/-- `nibble_to_hexchar`: hex digit character (as a byte) of a nibble. -/
def nibble_to_hexchar (a : ℕ) : ℕ :=
  if a < 10 then 48 + a
  else if a < 16 then 65 + (a - 10)
  else 63

/-- The XOR scan of `nmea_checksum`: starting at index `i`, XOR bytes until a
`'*'` (42) is found; returns the accumulated checksum and the index just
after the `'*'`, or `none` when the buffer ends first (the C code returns
-1). -/
def nmea_xor : List ℕ → ℕ → ℕ → Option (ℕ × ℕ)
  | [], _, _ => none
  | c :: rest, i, acc =>
    if c = 42 then some (acc, i + 1)
    else nmea_xor rest (i + 1) (Nat.xor acc c)

/-- `nmea_checksum`: skip a leading `'$'` (36), XOR until `'*'`. Returns the
checksum value and the position right after the `'*'`; `none` models the -1
error return (parameters invalid or `'*'` not found in the buffer). -/
def nmea_checksum (bs : List ℕ) : Option (ℕ × ℕ) :=
  if bs.length ≤ 1 then none
  else
    match bs with
    | [] => none
    | c :: rest => if c = 36 then nmea_xor rest 1 0 else nmea_xor (c :: rest) 0 0

/-- `validate_nmea_checksum`: the computed checksum's two hex characters must
be present and matching, and at least one byte must FOLLOW them in the buffer
(the C test `checksum_index >= buff_size - 2` rejects otherwise). -/
def validate_nmea_checksum (bs : List ℕ) : Bool :=
  match nmea_checksum bs with
  | none => false
  | some (ck, checksum_index) =>
    if (bs.length : ℤ) - 2 ≤ (checksum_index : ℤ) then false
    else
      decide (byteD bs checksum_index = nibble_to_hexchar (ck / 16) ∧
        byteD bs (checksum_index + 1) = nibble_to_hexchar (ck % 16))

/-- The token-counting core of `str_chop`: scan until a NUL byte, counting 1
plus the commas seen, capped at `max_idx` index slots. -/
def str_chop_count : List ℕ → ℕ → ℕ → ℕ
  | [], j, _ => j
  | c :: rest, j, max_idx =>
    if c = 0 then j
    else if c = 44 then
      (if max_idx ≤ j then j else str_chop_count rest (j + 1) max_idx)
    else str_chop_count rest j max_idx

/-- Number of fields found by `str_chop(parser_buf, buff_size, ',', ..., 30)`
after `lgw_parse_nmea` copies the sentence: `str_chop` first forces a NUL at
index `buff_size - 1`. -/
def nmea_fields (bs : List ℕ) : ℕ :=
  str_chop_count (bs.set (bs.length - 1) 0) 1 30

/-- `match_label`: the label (with wildcard byte) must match the buffer
prefix. -/
def match_label : List ℕ → List ℕ → ℕ → Bool
  | _, [], _ => true
  | [], _ :: _, _ => false
  | c :: s, l :: label, wildcard =>
    (l = wildcard || l = c) && match_label s label wildcard

/-- `lgw_parse_nmea`, classification part: which `gps_msg` kind the function
returns. The `sscanf`-based snapshot updates inside the RMC/GGA branches do
not influence the returned kind (wrong field counts return `IGNORED` before
any `sscanf`) and are not modelled; no claim refers to them. Label bytes:
`"$G?RMC"` = [36,71,63,82,77,67], `"$G?GGA"` = [36,71,63,71,71,65],
wildcard `'?'` = 63. -/
def lgw_parse_nmea (bs : List ℕ) : GpsMsg :=
  if 255 < bs.length then .INVALID
  else if bs.length < 8 then .UNKNOWN
  else if validate_nmea_checksum bs = false then .INVALID
  else if match_label bs [36, 71, 63, 82, 77, 67] 63 then
    (if nmea_fields bs = 13 ∨ nmea_fields bs = 14 then .NMEA_RMC else .IGNORED)
  else if match_label bs [36, 71, 63, 71, 71, 65] 63 then
    (if nmea_fields bs = 15 then .NMEA_GGA else .IGNORED)
  else .IGNORED

/-! ### Claim C10 — trailing bytes required after the NMEA checksum -/

/-- Claim C10 (counterexample): the 5-byte buffer `"$A*41"` has its two
matching checksum characters exactly at the end (position after `'*'` is
3 ≥ 5 − 2), but `lgw_parse_nmea` classifies it `UNKNOWN` (too short), not
`INVALID` as the claim states for every such buffer. -/
theorem C10_counterexample :
    lgw_parse_nmea [36, 65, 42, 52, 49] = .UNKNOWN ∧
    nmea_checksum [36, 65, 42, 52, 49] = some (65, 3) ∧
    byteD [36, 65, 42, 52, 49] 3 = nibble_to_hexchar (65 / 16) ∧
    byteD [36, 65, 42, 52, 49] 4 = nibble_to_hexchar (65 % 16) ∧
    ((5 : ℤ) - 2 ≤ 3) := by
  refine ⟨by decide, by decide, by decide, by decide, by decide⟩

/-- Claim C10 (amended): for every buffer of length between 8 and 255 in
which the `'*'` scan succeeds and the position immediately after `'*'` is at
least `buff_size − 2`, the sentence is classified `INVALID` even if the two
ASCII-hex checksum characters are present at the end of the buffer and match;
shorter buffers are classified `UNKNOWN` instead. -/
theorem C10_theorem (bs : List ℕ) (ck idx : ℕ)
    (h8 : 8 ≤ bs.length) (h255 : bs.length ≤ 255)
    (hscan : nmea_checksum bs = some (ck, idx))
    (hpos : (bs.length : ℤ) - 2 ≤ (idx : ℤ)) :
    lgw_parse_nmea bs = .INVALID := by
  have hv : validate_nmea_checksum bs = false := by
    simp only [validate_nmea_checksum, hscan]
    rw [if_pos hpos]
  unfold lgw_parse_nmea
  rw [if_neg (by omega), if_neg (by omega), if_pos hv]

/-- Claim C10 (witness): `"$ABCD*04"` (8 bytes) carries its matching checksum
characters as the final two bytes, with nothing after them: rejected as
`INVALID`. -/
theorem C10_witness :
    (8 ≤ ([36, 65, 66, 67, 68, 42, 48, 52] : List ℕ).length ∧
     ([36, 65, 66, 67, 68, 42, 48, 52] : List ℕ).length ≤ 255 ∧
     nmea_checksum [36, 65, 66, 67, 68, 42, 48, 52] = some (4, 6) ∧
     ((([36, 65, 66, 67, 68, 42, 48, 52] : List ℕ).length : ℤ) - 2 ≤ (6 : ℤ))) ∧
    lgw_parse_nmea [36, 65, 66, 67, 68, 42, 48, 52] = .INVALID := by
  refine ⟨⟨by decide, by decide, by decide, by decide⟩, ?_⟩
  exact C10_theorem [36, 65, 66, 67, 68, 42, 48, 52] 4 6 (by decide) (by decide) (by decide)
    (by decide)

end LoragwGps
